import Mathlib

/-!
Shallow embedding of the conversation controller of `src/App.tsx`
(the ats-chatbot repository): message data model, `initializeChat`,
`handleSendMessage`, and the `ChatInput` submit handler, together with
theorems about the conversation state machine.
-/

namespace AtsChatbot

/-- Role enum from App.tsx (`Role.USER = 'user'`, `Role.MODEL = 'model'`). -/
inductive Role where
  | user
  | model
deriving DecidableEq, Repr

/-- Message record from App.tsx: `{ id: string; role: Role; content: string }`. -/
structure Message where
  id : String
  role : Role
  content : String
deriving DecidableEq, Repr

/-- The React component state of `App`: `messages`, `isLoading`, `error`,
and whether `chatSessionRef.current` is non-null. -/
structure AppState where
  messages : List Message
  isLoading : Bool
  error : Option String
  chatSession : Bool
deriving DecidableEq, Repr

/-- Initial component state: `useState<Message[]>([])`, `useState(true)`,
`useState<string | null>(null)`, `useRef<any | null>(null)`. -/
def initialState : AppState :=
  { messages := [], isLoading := true, error := none, chatSession := false }

/-- Decimal digit to its character, as JavaScript template-string
interpolation renders each digit of a number. -/
def digitChar : Nat → Char
  | 0 => '0'
  | 1 => '1'
  | 2 => '2'
  | 3 => '3'
  | 4 => '4'
  | 5 => '5'
  | 6 => '6'
  | 7 => '7'
  | 8 => '8'
  | _ => '9'

/-- Little-endian decimal digits of a number, with fuel for structural
recursion (the fuel is always sufficient when called from `natDigits`). -/
def natDigitsCore : Nat → Nat → List Nat
  | 0, _ => []
  | fuel + 1, n => if n < 10 then [n] else n % 10 :: natDigitsCore fuel (n / 10)

/-- Little-endian decimal digits of a number. -/
def natDigits (n : Nat) : List Nat := natDigitsCore (n + 1) n

/-- Decimal rendering of a number, modelling how a JavaScript template
string such as `user-$\x7bDate.now()\x7d` renders `Date.now()`. -/
def natToString (n : Nat) : String := String.mk ((natDigits n).reverse.map digitChar)

/-- Value of a little-endian decimal digit list. -/
def evalDigits : List Nat → Nat
  | [] => 0
  | d :: ds => d + 10 * evalDigits ds

/-- Drop leading and trailing whitespace from a character list. -/
def trimChars (l : List Char) : List Char :=
  ((l.dropWhile Char.isWhitespace).reverse.dropWhile Char.isWhitespace).reverse

/-- The JavaScript `String.prototype.trim()` call used in App.tsx:
removes leading and trailing whitespace. -/
def jsTrim (s : String) : String := String.mk (trimChars s.data)

/-- Greeting text seeded on successful initialization. -/
def greetingText : String := "Hello! I'm an assistant powered by Gemini. How can I help you today?"

/-- The initial greeting message set by `initializeChat` on success. -/
def greetingMessage : Message :=
  { id := "initial-message", role := Role.model, content := greetingText }

/-- Error banner text when the API key is missing. -/
def missingKeyText : String := "API Key is missing. Make sure you have set the VITE_GEMINI_API_KEY environment variable in your .env file or deployment service (like Netlify)."

/-- Error banner text when session construction throws, wrapping the raw
error message. -/
def initFailText (e : String) : String :=
  "Failed to initialize the chatbot. Please check your API key and setup.\n\nError: " ++ e

/-- JavaScript truthiness test `!API_KEY`: the credential is missing when
the environment variable is undefined or the empty string. -/
def credentialMissing : Option String → Bool
  | none => true
  | some s => s == ""

/-- The `initializeChat` effect of App.tsx. The API key is an optional
environment string; `construct` stands for the outcome of constructing the
SDK client, model and chat session (`Except.error e` when that code throws
with message `e`). On the missing-key path it sets the error banner and
returns; on success it stores the session and seeds the greeting; on a
construction failure it sets the wrapped error banner. In all cases
`isLoading` ends false. -/
def initializeChat (apiKey : Option String) (construct : Except String Unit)
    (s : AppState) : AppState :=
  let s0 : AppState := { s with isLoading := true, error := none }
  if credentialMissing apiKey then
    { s0 with error := some missingKeyText, isLoading := false }
  else
    match construct with
    | Except.ok _ =>
        { s0 with chatSession := true, messages := [greetingMessage], isLoading := false }
    | Except.error e =>
        { s0 with error := some (initFailText e), isLoading := false }

/-- The user message built in `handleSendMessage`:
id `user-$\x7bDate.now()\x7d`, role USER, content the raw `userInput`. -/
def userMessage (t : Nat) (userInput : String) : Message :=
  { id := "user-" ++ natToString t, role := Role.user, content := userInput }

/-- The model message built on a successful exchange:
id `model-$\x7bDate.now()\x7d`, role MODEL, content `responseContent.trim()`. -/
def modelMessage (t : Nat) (responseContent : String) : Message :=
  { id := "model-" ++ natToString t, role := Role.model, content := jsTrim responseContent }

/-- Message text of the internally thrown empty-response error. -/
def emptyResponseText : String := "Received an empty response from the API."

/-- Content of the synthetic error message appended in the catch branch. -/
def apologyText (e : String) : String :=
  "Sorry, I ran into a problem. Please try again.\n\n*Error: " ++ e ++ "*"

/-- The error message built in the catch branch of `handleSendMessage`:
id `error-$\x7bDate.now()\x7d`, role MODEL, apology content. -/
def errorMessage (t : Nat) (e : String) : Message :=
  { id := "error-" ++ natToString t, role := Role.model, content := apologyText e }

/-- The banner error text set in the catch branch. -/
def bannerText (e : String) : String := "API Error: " ++ e

/-- The state of `handleSendMessage` after the guard passes and before the
remote exchange is awaited: `setIsLoading(true)`, `setError(null)`, and the
user message appended to `messages`. `t1` is the `Date.now()` reading used
for the user message id. -/
def sendPreExchange (t1 : Nat) (userInput : String) (s : AppState) : AppState :=
  { s with
      isLoading := true
      error := none
      messages := s.messages ++ [userMessage t1 userInput] }

/-- The rest of `handleSendMessage` once the exchange has resolved:
on `Except.ok` with an empty text the code throws and the catch branch
appends the apology message and sets the banner; on `Except.ok` with
non-empty text it appends the trimmed model message; on `Except.error e`
the catch branch appends the apology message and sets the banner. The
`finally` clause clears `isLoading` on every path. `t2` is the
`Date.now()` reading used for the response message id. -/
def sendPostExchange (t2 : Nat) (result : Except String String) (s : AppState) : AppState :=
  match result with
  | Except.ok responseContent =>
      if responseContent == "" then
        { s with
            messages := s.messages ++ [errorMessage t2 emptyResponseText]
            error := some (bannerText emptyResponseText)
            isLoading := false }
      else
        { s with
            messages := s.messages ++ [modelMessage t2 responseContent]
            isLoading := false }
  | Except.error e =>
      { s with
          messages := s.messages ++ [errorMessage t2 e]
          error := some (bannerText e)
          isLoading := false }

/-- The `handleSendMessage` handler of App.tsx. `exchange` models
`chatSessionRef.current.sendMessage` followed by `result.response.text()`
(`Except.error e` when that call rejects with message `e`). The second
component of the result lists the outbound requests actually issued
through the session handle during the call. The guard
`if (isLoading || !chatSessionRef.current) return;` makes the call a
no-op that issues no request. -/
def handleSendMessage (exchange : String → Except String String) (t1 t2 : Nat)
    (userInput : String) (s : AppState) : AppState × List String :=
  if s.isLoading || !s.chatSession then (s, [])
  else
    (sendPostExchange t2 (exchange userInput) (sendPreExchange t1 userInput s), [userInput])

/-- The submit handler of the `ChatInput` component in App.tsx:
`if (input.trim()) \x7b onSendMessage(input.trim()); ... \x7d`. Returns the
text passed to `onSendMessage`, or `none` when no call is made. -/
def chatInputSubmit (input : String) : Option String :=
  if jsTrim input == "" then none else some (jsTrim input)

/-- The composition of the `ChatInput` submit handler with
`handleSendMessage`, as wired in App.tsx
(`onSendMessage=\x7bhandleSendMessage\x7d`). -/
def submitForm (exchange : String → Except String String) (t1 t2 : Nat)
    (input : String) (s : AppState) : AppState × List String :=
  match chatInputSubmit input with
  | none => (s, [])
  | some text => handleSendMessage exchange t1 t2 text s

/-- One `handleSendMessage` call with its two `Date.now()` readings, the
input text and the outcome of the remote exchange. -/
structure SendEvent where
  t1 : Nat
  t2 : Nat
  input : String
  result : Except String String
deriving Repr

/-- Run a sequence of `handleSendMessage` calls, each with its own
timestamps and mocked exchange outcome. -/
def runSends (events : List SendEvent) (s : AppState) : AppState :=
  match events with
  | [] => s
  | ev :: rest =>
      runSends rest (handleSendMessage (fun _ => ev.result) ev.t1 ev.t2 ev.input s).1

/-- The second message a ready send appends (after the user message):
the trimmed model message on a non-empty success, the apology message on
an empty success or a failure. -/
def secondMessage (t2 : Nat) : Except String String → Message
  | Except.ok r => if r == "" then errorMessage t2 emptyResponseText else modelMessage t2 r
  | Except.error e => errorMessage t2 e

/-- The raw error text the catch branch of `handleSendMessage` receives for
a failing exchange outcome, or `none` when the send succeeds: a rejecting
call delivers its own message, and a transport-successful call returning the
empty string delivers the message of the internally thrown
empty-response error. -/
def failureText : Except String String → Option String
  | Except.ok r => if r == "" then some emptyResponseText else none
  | Except.error e => some e

/-- The two messages one send event appends when the controller is ready. -/
def eventTurns (ev : SendEvent) : List Message :=
  [userMessage ev.t1 ev.input, secondMessage ev.t2 ev.result]

/-- All messages a list of send events appends, in order. -/
def eventsTurns : List SendEvent → List Message
  | [] => []
  | ev :: rest => eventTurns ev ++ eventsTurns rest

/-- The id-prefix tags a send can generate. -/
def idTags : List String := ["user-", "model-", "error-"]

/-- Id tag and timestamp of the second message of a send event. -/
def secondTag (ev : SendEvent) : String :=
  match ev.result with
  | Except.ok r => if r == "" then "error-" else "model-"
  | Except.error _ => "error-"

/-- Tag-and-timestamp pairs of the ids one send event generates. -/
def eventIdKeys (ev : SendEvent) : List (String × Nat) :=
  [("user-", ev.t1), (secondTag ev, ev.t2)]

/-- Tag-and-timestamp pairs of the ids a list of send events generates. -/
def eventsIdKeys : List SendEvent → List (String × Nat)
  | [] => []
  | ev :: rest => eventIdKeys ev ++ eventsIdKeys rest

/-- Render a tag-and-timestamp pair as a message id string. -/
def renderId (k : String × Nat) : String := k.1 ++ natToString k.2

/-- All `Date.now()` readings of a list of send events, in order. -/
def eventsTimes : List SendEvent → List Nat
  | [] => []
  | ev :: rest => ev.t1 :: ev.t2 :: eventsTimes rest

/-- A send event whose exchange succeeds, with its reply text. -/
structure OkSend where
  t1 : Nat
  t2 : Nat
  input : String
  reply : String
deriving DecidableEq, Repr

/-- View an `OkSend` as a `SendEvent`. -/
def okEvent (o : OkSend) : SendEvent :=
  { t1 := o.t1, t2 := o.t2, input := o.input, result := Except.ok o.reply }

/-- The alternating user and model messages a list of successful sends
appends. -/
def okSendTurns : List OkSend → List Message
  | [] => []
  | o :: rest => userMessage o.t1 o.input :: modelMessage o.t2 o.reply :: okSendTurns rest

/-- A state obtained by a successful initialization: the session is ready,
the greeting is seeded, the controller is idle. -/
def readyState : AppState :=
  initializeChat (some "test-api-key") (Except.ok ()) initialState

/-- A state in which a send is in flight: the busy flag is set. -/
def busyState : AppState :=
  { messages := [greetingMessage], isLoading := true, error := none, chatSession := true }

/-! ### Decimal rendering lemmas -/

theorem evalDigits_natDigitsCore : ∀ (fuel n : Nat), n < fuel →
    evalDigits (natDigitsCore fuel n) = n := by
  intro fuel
  induction fuel with
  | zero => intro n h; omega
  | succ f ih =>
      intro n h
      by_cases h10 : n < 10
      · simp [natDigitsCore, h10, evalDigits]
      · have hpos : 0 < n := by omega
        have hdiv : n / 10 < n := Nat.div_lt_self hpos (by omega)
        have hf : n / 10 < f := by omega
        simp only [natDigitsCore, if_neg h10, evalDigits, ih _ hf]
        omega

theorem natDigits_inj {a b : Nat} (h : natDigits a = natDigits b) : a = b := by
  have ha := evalDigits_natDigitsCore (a + 1) a (Nat.lt_succ_self a)
  have hb := evalDigits_natDigitsCore (b + 1) b (Nat.lt_succ_self b)
  rw [show natDigitsCore (a + 1) a = natDigits a from rfl] at ha
  rw [show natDigitsCore (b + 1) b = natDigits b from rfl] at hb
  rw [h] at ha
  omega

theorem natDigitsCore_lt_ten : ∀ (fuel n : Nat), ∀ d ∈ natDigitsCore fuel n, d < 10 := by
  intro fuel
  induction fuel with
  | zero => intro n d hd; simp [natDigitsCore] at hd
  | succ f ih =>
      intro n d hd
      by_cases h10 : n < 10
      · simp [natDigitsCore, h10] at hd
        omega
      · simp only [natDigitsCore, if_neg h10, List.mem_cons] at hd
        rcases hd with hd | hd
        · omega
        · exact ih _ _ hd

theorem digitChar_inj {a b : Nat} (ha : a < 10) (hb : b < 10)
    (h : digitChar a = digitChar b) : a = b := by
  interval_cases a <;> interval_cases b <;> revert h <;> decide

theorem map_digitChar_inj : ∀ (l₁ l₂ : List Nat), (∀ d ∈ l₁, d < 10) → (∀ d ∈ l₂, d < 10) →
    l₁.map digitChar = l₂.map digitChar → l₁ = l₂ := by
  intro l₁
  induction l₁ with
  | nil => intro l₂ _ _ h; cases l₂ <;> simp_all
  | cons a t ih =>
      intro l₂ h₁ h₂ h
      cases l₂ with
      | nil => simp at h
      | cons b t₂ =>
          simp only [List.map_cons, List.cons.injEq] at h
          have hab : a = b :=
            digitChar_inj (h₁ a (by simp)) (h₂ b (by simp)) h.1
          have ht : t = t₂ :=
            ih t₂ (fun d hd => h₁ d (by simp [hd])) (fun d hd => h₂ d (by simp [hd])) h.2
          rw [hab, ht]

theorem natToString_inj {a b : Nat} (h : natToString a = natToString b) : a = b := by
  have hdata : ((natDigits a).reverse.map digitChar) = ((natDigits b).reverse.map digitChar) :=
    congrArg String.data h
  have hrev : (natDigits a).reverse = (natDigits b).reverse :=
    map_digitChar_inj _ _
      (fun d hd => natDigitsCore_lt_ten _ _ d (List.mem_reverse.mp hd))
      (fun d hd => natDigitsCore_lt_ten _ _ d (List.mem_reverse.mp hd)) hdata
  exact natDigits_inj (List.reverse_injective hrev)

/-! ### Message id lemmas -/

theorem string_append_cancel_left {p s t : String} (h : p ++ s = p ++ t) : s = t := by
  apply String.ext
  have hd := congrArg String.data h
  simp only [String.data_append] at hd
  exact List.append_cancel_left hd

theorem head_of_append {p s : String} {c : Char} (hc : p.data.head? = some c) :
    (p ++ s).data.head? = some c := by
  rw [String.data_append]
  cases hp : p.data with
  | nil => rw [hp] at hc; simp at hc
  | cons x xs =>
      rw [hp] at hc
      simp only [List.head?_cons, Option.some.injEq] at hc
      simp [hc]

theorem renderId_time_eq {p q : String} (hp : p ∈ idTags) (hq : q ∈ idTags)
    {a b : Nat} (h : p ++ natToString a = q ++ natToString b) : a = b := by
  have hh : (p ++ natToString a).data.head? = (q ++ natToString b).data.head? :=
    congrArg (fun t => t.data.head?) h
  simp only [idTags, List.mem_cons, List.not_mem_nil, or_false] at hp hq
  rcases hp with hp | hp | hp <;> rcases hq with hq | hq | hq <;> subst hp <;> subst hq
  · exact natToString_inj (string_append_cancel_left h)
  · rw [head_of_append (c := 'u') (by decide), head_of_append (c := 'm') (by decide)] at hh
    exact absurd hh (by decide)
  · rw [head_of_append (c := 'u') (by decide), head_of_append (c := 'e') (by decide)] at hh
    exact absurd hh (by decide)
  · rw [head_of_append (c := 'm') (by decide), head_of_append (c := 'u') (by decide)] at hh
    exact absurd hh (by decide)
  · exact natToString_inj (string_append_cancel_left h)
  · rw [head_of_append (c := 'm') (by decide), head_of_append (c := 'e') (by decide)] at hh
    exact absurd hh (by decide)
  · rw [head_of_append (c := 'e') (by decide), head_of_append (c := 'u') (by decide)] at hh
    exact absurd hh (by decide)
  · rw [head_of_append (c := 'e') (by decide), head_of_append (c := 'm') (by decide)] at hh
    exact absurd hh (by decide)
  · exact natToString_inj (string_append_cancel_left h)

theorem renderId_ne_initial {p : String} (hp : p ∈ idTags) (t : Nat) :
    p ++ natToString t ≠ "initial-message" := by
  intro h
  have hh : (p ++ natToString t).data.head? = ("initial-message" : String).data.head? :=
    congrArg (fun s => s.data.head?) h
  simp only [idTags, List.mem_cons, List.not_mem_nil, or_false] at hp
  rcases hp with hp | hp | hp <;> subst hp
  · rw [head_of_append (c := 'u') (by decide)] at hh
    exact absurd hh (by decide)
  · rw [head_of_append (c := 'm') (by decide)] at hh
    exact absurd hh (by decide)
  · rw [head_of_append (c := 'e') (by decide)] at hh
    exact absurd hh (by decide)

/-! ### Send step and sequence lemmas -/

theorem handleSend_ready (exchange : String → Except String String) (t1 t2 : Nat)
    (text : String) (s : AppState) (hsess : s.chatSession = true) (hbusy : s.isLoading = false) :
    (handleSendMessage exchange t1 t2 text s).1.messages
        = s.messages ++ [userMessage t1 text, secondMessage t2 (exchange text)]
    ∧ (handleSendMessage exchange t1 t2 text s).1.isLoading = false
    ∧ (handleSendMessage exchange t1 t2 text s).1.chatSession = true := by
  simp only [handleSendMessage, hbusy, hsess, Bool.not_true, Bool.or_self, Bool.false_eq_true,
    if_false]
  rcases hx : exchange text with e | r
  · simp [sendPostExchange, sendPreExchange, secondMessage, hx, hsess]
  · by_cases hr : r == ""
    · simp [sendPostExchange, sendPreExchange, secondMessage, hx, hr, hsess]
    · simp [sendPostExchange, sendPreExchange, secondMessage, hx, hr, hsess]

theorem runSends_shape : ∀ (events : List SendEvent) (s : AppState),
    s.chatSession = true → s.isLoading = false →
    (runSends events s).messages = s.messages ++ eventsTurns events
    ∧ (runSends events s).isLoading = false
    ∧ (runSends events s).chatSession = true := by
  intro events
  induction events with
  | nil => intro s h1 h2; simpa [runSends, eventsTurns] using ⟨h2, h1⟩
  | cons ev rest ih =>
      intro s h1 h2
      have hstep := handleSend_ready (fun _ => ev.result) ev.t1 ev.t2 ev.input s h1 h2
      have hrest := ih _ hstep.2.2 hstep.2.1
      refine ⟨?_, hrest.2.1, hrest.2.2⟩
      show (runSends rest _).messages = _
      rw [hrest.1, hstep.1]
      simp [eventsTurns, eventTurns, List.append_assoc]

theorem eventsTurns_ids : ∀ events : List SendEvent,
    (eventsTurns events).map Message.id = (eventsIdKeys events).map renderId := by
  intro events
  induction events with
  | nil => rfl
  | cons ev rest ih =>
      simp only [eventsTurns, eventsIdKeys, List.map_append, ih]
      congr 1
      rcases hx : ev.result with e | r
      · simp [eventTurns, eventIdKeys, secondMessage, secondTag, renderId, hx,
          userMessage, errorMessage]
      · by_cases hr : r == "" <;>
          simp [eventTurns, eventIdKeys, secondMessage, secondTag, renderId, hx, hr,
            userMessage, errorMessage, modelMessage]

theorem eventsIdKeys_snd : ∀ events : List SendEvent,
    (eventsIdKeys events).map Prod.snd = eventsTimes events := by
  intro events
  induction events with
  | nil => rfl
  | cons ev rest ih => simp [eventsIdKeys, eventsTimes, eventIdKeys, ih]

theorem eventsIdKeys_tags : ∀ events : List SendEvent, ∀ k ∈ eventsIdKeys events, k.1 ∈ idTags := by
  intro events
  induction events with
  | nil => intro k hk; simp [eventsIdKeys] at hk
  | cons ev rest ih =>
      intro k hk
      simp only [eventsIdKeys, List.mem_append] at hk
      rcases hk with hk | hk
      · simp only [eventIdKeys, List.mem_cons, List.not_mem_nil, or_false] at hk
        rcases hk with hk | hk <;> subst hk
        · simp [idTags]
        · rcases hx : ev.result with e | r
          · simp [secondTag, hx, idTags]
          · by_cases hr : r == "" <;> simp [secondTag, hx, hr, idTags]
      · exact ih k hk

theorem idKeys_render_nodup {ks : List (String × Nat)} (htags : ∀ k ∈ ks, k.1 ∈ idTags)
    (htimes : (ks.map Prod.snd).Nodup) : (ks.map renderId).Nodup := by
  have hk : ks.Nodup := List.Nodup.of_map Prod.snd htimes
  apply List.Nodup.map_on ?_ hk
  intro x hx y hy hxy
  have hsnd : x.2 = y.2 := renderId_time_eq (htags x hx) (htags y hy) hxy
  exact List.inj_on_of_nodup_map htimes hx hy hsnd

theorem okSends_turns : ∀ (sends : List OkSend), (∀ o ∈ sends, o.reply ≠ "") →
    eventsTurns (sends.map okEvent) = okSendTurns sends := by
  intro sends
  induction sends with
  | nil => intro _; rfl
  | cons o rest ih =>
      intro hne
      have ho : (o.reply == "") = false := beq_eq_false_iff_ne.mpr (hne o (by simp))
      simp [eventsTurns, eventTurns, okSendTurns, okEvent, secondMessage, ho,
        ih (fun x hx => hne x (by simp [hx]))]

theorem str_append_assoc (a b c : String) : a ++ b ++ c = a ++ (b ++ c) := by
  apply String.ext
  simp [String.data_append]

/-! ### Claim theorems -/

/-- C1: while the busy flag `isLoading` is true, `handleSendMessage` is a
no-op: the whole state (in particular the message list) is unchanged and no
outbound exchange is issued through the session handle. -/
theorem busy_send_noop (exchange : String → Except String String) (t1 t2 : Nat)
    (text : String) (s : AppState) (hbusy : s.isLoading = true) :
    handleSendMessage exchange t1 t2 text s = (s, []) := by
  simp [handleSendMessage, hbusy]

/-- Witness for `busy_send_noop` at a concrete busy state. -/
theorem busy_send_noop_witness :
    busyState.isLoading = true
    ∧ handleSendMessage (fun _ => Except.ok "4") 1 2 "hello" busyState = (busyState, []) :=
  ⟨rfl, busy_send_noop (fun _ => Except.ok "4") 1 2 "hello" busyState rfl⟩

/-- C2 counterexample: `handleSendMessage` called directly with the empty
string while the session is ready and idle is not a no-op: the conversation
grows by two messages and one outbound exchange is issued. -/
theorem blank_send_counterexample :
    (handleSendMessage (fun _ => Except.error "boom") 1 2 "" readyState).1.messages.length
        = readyState.messages.length + 2
    ∧ (handleSendMessage (fun _ => Except.error "boom") 1 2 "" readyState).2 = [""] := by
  constructor <;> decide

/-- C2 amended: blank input is rejected by the `ChatInput` submit handler
(the Presentation Layer), not inside `handleSendMessage`: submitting text
that trims to empty leaves the state unchanged and issues no outbound
exchange. -/
theorem blank_submit_noop (exchange : String → Except String String) (t1 t2 : Nat)
    (input : String) (s : AppState) (h : jsTrim input = "") :
    submitForm exchange t1 t2 input s = (s, []) := by
  simp [submitForm, chatInputSubmit, h]

/-- Witness for `blank_submit_noop` at the inputs of the claim. -/
theorem blank_submit_noop_witness :
    jsTrim "   " = "" ∧ jsTrim "" = ""
    ∧ submitForm (fun _ => Except.ok "4") 1 2 "   " readyState = (readyState, [])
    ∧ submitForm (fun _ => Except.ok "4") 1 2 "" readyState = (readyState, []) :=
  ⟨by decide, by decide,
   blank_submit_noop (fun _ => Except.ok "4") 1 2 "   " readyState (by decide),
   blank_submit_noop (fun _ => Except.ok "4") 1 2 "" readyState (by decide)⟩

/-- C3: with the credential absent, initialization leaves the conversation
empty with no greeting message, sets the user-visible missing-key error,
leaves the session handle absent, and every subsequent send call in this
state is a no-op that issues no exchange. -/
theorem init_missing_key (construct : Except String Unit) :
    (initializeChat none construct initialState).messages = []
    ∧ (initializeChat none construct initialState).error = some missingKeyText
    ∧ (initializeChat none construct initialState).chatSession = false
    ∧ ∀ (exchange : String → Except String String) (t1 t2 : Nat) (text : String),
        handleSendMessage exchange t1 t2 text (initializeChat none construct initialState)
          = (initializeChat none construct initialState, []) := by
  refine ⟨rfl, rfl, rfl, fun exchange t1 t2 text => rfl⟩

/-- C4: with a present non-empty credential and successful construction,
initialization yields the ready state: session handle present, busy flag
cleared, no error, and the conversation is exactly one assistant message
with the specified greeting text. -/
theorem init_success (key : String) (h : key ≠ "") :
    initializeChat (some key) (Except.ok ()) initialState
        = { messages := [greetingMessage], isLoading := false, error := none,
            chatSession := true }
    ∧ greetingMessage.role = Role.model
    ∧ greetingMessage.content
        = "Hello! I'm an assistant powered by Gemini. How can I help you today?" := by
  have hk : (key == "") = false := beq_eq_false_iff_ne.mpr h
  refine ⟨?_, rfl, rfl⟩
  simp [initializeChat, credentialMissing, hk, initialState]

/-- Witness for `init_success` at a concrete credential. -/
theorem init_success_witness :
    ("demo-key" : String) ≠ ""
    ∧ (initializeChat (some "demo-key") (Except.ok ()) initialState
        = { messages := [greetingMessage], isLoading := false, error := none,
            chatSession := true }
    ∧ greetingMessage.role = Role.model
    ∧ greetingMessage.content
        = "Hello! I'm an assistant powered by Gemini. How can I help you today?") :=
  ⟨by decide, init_success "demo-key" (by decide)⟩

/-- C5 counterexample: with the non-blank input " hi " accepted directly by
`handleSendMessage`, the user message appended before the exchange carries
the raw text " hi ", and no message of the resulting conversation has the
trimmed text "hi". -/
theorem untrimmed_echo_counterexample :
    (sendPreExchange 1 " hi " readyState).messages
        = readyState.messages ++ [{ id := "user-1", role := Role.user, content := " hi " }]
    ∧ jsTrim " hi " = "hi"
    ∧ ∀ m ∈ (handleSendMessage (fun _ => Except.ok "ok") 1 2 " hi " readyState).1.messages,
        m.content ≠ "hi" :=
  ⟨by decide, by decide, by decide⟩

/-- C5 amended: for every input accepted by `handleSendMessage`, a USER
message whose text is exactly the input string is appended and the busy flag
is set true before the exchange result is consumed; the trimming happens in
the Presentation Layer, so any text delivered to the controller by the
`ChatInput` submit handler already equals the trimmed submission. -/
theorem send_optimistic_echo (exchange : String → Except String String) (t1 t2 : Nat)
    (text : String) (s : AppState) (hsess : s.chatSession = true)
    (hbusy : s.isLoading = false) :
    (sendPreExchange t1 text s).messages = s.messages ++ [userMessage t1 text]
    ∧ (userMessage t1 text).role = Role.user
    ∧ (userMessage t1 text).content = text
    ∧ (sendPreExchange t1 text s).isLoading = true
    ∧ (handleSendMessage exchange t1 t2 text s)
        = (sendPostExchange t2 (exchange text) (sendPreExchange t1 text s), [text])
    ∧ ∀ input, chatInputSubmit input = some text → text = jsTrim input := by
  refine ⟨rfl, rfl, rfl, rfl, ?_, ?_⟩
  · simp [handleSendMessage, hsess, hbusy]
  · intro input h
    by_cases hb : jsTrim input == ""
    · simp [chatInputSubmit, hb] at h
    · simp [chatInputSubmit, hb] at h
      exact h.symm

/-- Witness for `send_optimistic_echo` at a concrete ready state. -/
theorem send_optimistic_echo_witness :
    readyState.chatSession = true ∧ readyState.isLoading = false
    ∧ ((sendPreExchange 1 "hello" readyState).messages
          = readyState.messages ++ [userMessage 1 "hello"]
    ∧ (userMessage 1 "hello").role = Role.user
    ∧ (userMessage 1 "hello").content = "hello"
    ∧ (sendPreExchange 1 "hello" readyState).isLoading = true
    ∧ (handleSendMessage (fun _ => Except.ok "hi there") 1 2 "hello" readyState)
        = (sendPostExchange 2 ((fun _ => Except.ok "hi there") "hello")
            (sendPreExchange 1 "hello" readyState), ["hello"])
    ∧ ∀ input, chatInputSubmit input = some "hello" → "hello" = jsTrim input) :=
  ⟨rfl, rfl, send_optimistic_echo (fun _ => Except.ok "hi there") 1 2 "hello" readyState rfl rfl⟩

/-- C6: when the exchange succeeds transport-wise but returns the empty
string, the message appended after the user message is the apology/error
assistant message wrapping the internal empty-response error text, its
content is not empty, and the error banner is also set. -/
theorem empty_response_failure (exchange : String → Except String String) (t1 t2 : Nat)
    (text : String) (s : AppState) (hsess : s.chatSession = true)
    (hbusy : s.isLoading = false) (hempty : exchange text = Except.ok "") :
    (handleSendMessage exchange t1 t2 text s).1.messages
        = s.messages ++ [userMessage t1 text, errorMessage t2 emptyResponseText]
    ∧ (errorMessage t2 emptyResponseText).role = Role.model
    ∧ (errorMessage t2 emptyResponseText).content = apologyText emptyResponseText
    ∧ (errorMessage t2 emptyResponseText).content ≠ ""
    ∧ (handleSendMessage exchange t1 t2 text s).1.error
        = some (bannerText emptyResponseText) := by
  have h := (handleSend_ready exchange t1 t2 text s hsess hbusy).1
  rw [hempty] at h
  refine ⟨h, rfl, rfl, (by decide : apologyText emptyResponseText ≠ ""), ?_⟩
  simp [handleSendMessage, hsess, hbusy, sendPostExchange, sendPreExchange, hempty]

/-- Witness for `empty_response_failure` with a mocked empty reply. -/
theorem empty_response_failure_witness :
    readyState.chatSession = true ∧ readyState.isLoading = false
    ∧ (((fun _ => Except.ok "") : String → Except String String) "question" = Except.ok ""
    ∧ ((handleSendMessage (fun _ => Except.ok "") 1 2 "question" readyState).1.messages
        = readyState.messages ++ [userMessage 1 "question", errorMessage 2 emptyResponseText]
    ∧ (errorMessage 2 emptyResponseText).role = Role.model
    ∧ (errorMessage 2 emptyResponseText).content = apologyText emptyResponseText
    ∧ (errorMessage 2 emptyResponseText).content ≠ ""
    ∧ (handleSendMessage (fun _ => Except.ok "") 1 2 "question" readyState).1.error
        = some (bannerText emptyResponseText))) :=
  ⟨rfl, rfl, rfl,
   empty_response_failure (fun _ => Except.ok "") 1 2 "question" readyState rfl rfl rfl⟩

/-- C7: on every failure of the exchange inside send — a rejecting call
(transport or remote error) as well as a transport-successful call
returning the empty string — the conversation gains, right after the user
message, a synthetic assistant message whose text contains the apology
phrase and the raw error text, and the banner-level error is also set to a
text wrapping the raw error. -/
theorem failure_apology (exchange : String → Except String String) (t1 t2 : Nat)
    (text e : String) (s : AppState) (hsess : s.chatSession = true)
    (hbusy : s.isLoading = false) (hfail : failureText (exchange text) = some e) :
    (handleSendMessage exchange t1 t2 text s).1.messages
        = s.messages ++ [userMessage t1 text, errorMessage t2 e]
    ∧ (errorMessage t2 e).role = Role.model
    ∧ (∃ a b, (errorMessage t2 e).content = a ++ "Sorry, I ran into a problem." ++ b)
    ∧ (∃ a b, (errorMessage t2 e).content = a ++ e ++ b)
    ∧ (handleSendMessage exchange t1 t2 text s).1.error = some (bannerText e)
    ∧ bannerText e = "API Error: " ++ e
    ∧ (handleSendMessage exchange t1 t2 text s).1.isLoading = false := by
  have h := handleSend_ready exchange t1 t2 text s hsess hbusy
  have hsec : secondMessage t2 (exchange text) = errorMessage t2 e := by
    rcases hx : exchange text with e' | r
    · rw [hx] at hfail
      simp only [failureText, Option.some.injEq] at hfail
      simp [secondMessage, hfail]
    · rw [hx] at hfail
      by_cases hr : r == ""
      · simp only [failureText, hr, if_true, Option.some.injEq] at hfail
        simp [secondMessage, hr, hfail]
      · simp [failureText, hr] at hfail
  have hbanner : (handleSendMessage exchange t1 t2 text s).1.error = some (bannerText e) := by
    rcases hx : exchange text with e' | r
    · rw [hx] at hfail
      simp only [failureText, Option.some.injEq] at hfail
      simp [handleSendMessage, hsess, hbusy, sendPostExchange, sendPreExchange, hx, hfail]
    · rw [hx] at hfail
      by_cases hr : r == ""
      · simp only [failureText, hr, if_true, Option.some.injEq] at hfail
        simp [handleSendMessage, hsess, hbusy, sendPostExchange, sendPreExchange, hx, hr,
          hfail]
      · simp [failureText, hr] at hfail
  have hm := h.1
  rw [hsec] at hm
  have hsplit : ("Sorry, I ran into a problem. Please try again.\n\n*Error: " : String)
      = "Sorry, I ran into a problem." ++ " Please try again.\n\n*Error: " := by decide
  refine ⟨hm, rfl,
    ⟨"", " Please try again.\n\n*Error: " ++ e ++ "*", ?_⟩,
    ⟨"Sorry, I ran into a problem. Please try again.\n\n*Error: ", "*", rfl⟩,
    hbanner, rfl, h.2.1⟩
  show apologyText e
      = "" ++ "Sorry, I ran into a problem." ++ (" Please try again.\n\n*Error: " ++ e ++ "*")
  rw [apologyText, hsplit]
  apply String.ext
  simp [String.data_append]

/-- Witness for `failure_apology` with a mocked transport error "timeout". -/
theorem failure_apology_witness :
    readyState.chatSession = true ∧ readyState.isLoading = false
    ∧ (failureText (((fun _ => Except.error "timeout") : String → Except String String)
          "trigger failure") = some "timeout"
    ∧ ((handleSendMessage (fun _ => Except.error "timeout") 1 2 "trigger failure"
          readyState).1.messages
        = readyState.messages ++ [userMessage 1 "trigger failure", errorMessage 2 "timeout"]
    ∧ (errorMessage 2 "timeout").role = Role.model
    ∧ (∃ a b, (errorMessage 2 "timeout").content = a ++ "Sorry, I ran into a problem." ++ b)
    ∧ (∃ a b, (errorMessage 2 "timeout").content = a ++ "timeout" ++ b)
    ∧ (handleSendMessage (fun _ => Except.error "timeout") 1 2 "trigger failure"
          readyState).1.error = some (bannerText "timeout")
    ∧ bannerText "timeout" = "API Error: " ++ "timeout"
    ∧ (handleSendMessage (fun _ => Except.error "timeout") 1 2 "trigger failure"
          readyState).1.isLoading = false)) :=
  ⟨rfl, rfl, rfl,
   failure_apology (fun _ => Except.error "timeout") 1 2 "trigger failure" "timeout"
     readyState rfl rfl rfl⟩

/-- C8: from the successfully initialized state, any sequence of successful
sends with non-empty replies yields the conversation consisting of the
greeting followed by the USER and ASSISTANT messages of each send in strict
insertion order, alternating USER then ASSISTANT, with the busy flag false
at the end. -/
theorem successful_sends_ordering (sends : List OkSend)
    (hne : ∀ o ∈ sends, o.reply ≠ "") :
    (runSends (sends.map okEvent) readyState).messages = greetingMessage :: okSendTurns sends
    ∧ (runSends (sends.map okEvent) readyState).isLoading = false := by
  have h := runSends_shape (sends.map okEvent) readyState rfl rfl
  refine ⟨?_, h.2.1⟩
  rw [h.1, okSends_turns sends hne]
  rfl

/-- Witness for `successful_sends_ordering` at the scenario of the claim. -/
theorem successful_sends_ordering_witness :
    (∀ o ∈ [OkSend.mk 1 2 "What is 2+2?" "4"], o.reply ≠ "")
    ∧ ((runSends ([OkSend.mk 1 2 "What is 2+2?" "4"].map okEvent) readyState).messages
          = greetingMessage :: okSendTurns [OkSend.mk 1 2 "What is 2+2?" "4"]
    ∧ (runSends ([OkSend.mk 1 2 "What is 2+2?" "4"].map okEvent) readyState).isLoading
          = false) :=
  ⟨by decide, successful_sends_ordering [OkSend.mk 1 2 "What is 2+2?" "4"] (by decide)⟩

/-- C9 counterexample: two sends whose `Date.now()` readings coincide
produce duplicate message ids in a reachable conversation. -/
theorem send_ids_collision :
    ((runSends [SendEvent.mk 5 7 "a" (Except.error "boom"),
        SendEvent.mk 5 7 "b" (Except.error "boom")] readyState).messages.map Message.id)
      = ["initial-message", "user-5", "error-7", "user-5", "error-7"]
    ∧ ¬ ((runSends [SendEvent.mk 5 7 "a" (Except.error "boom"),
        SendEvent.mk 5 7 "b" (Except.error "boom")] readyState).messages.map
          Message.id).Nodup := by
  constructor <;> decide

/-- C9 amended: ids embed the creation-time millisecond reading with a
per-kind prefix, so for every sequence of sends from the initialized state
in which all `Date.now()` readings are pairwise distinct, no two messages of
the resulting conversation share an id. -/
theorem send_ids_unique (events : List SendEvent)
    (h : (eventsTimes events).Nodup) :
    ((runSends events readyState).messages.map Message.id).Nodup := by
  have hshape := runSends_shape events readyState rfl rfl
  rw [hshape.1]
  show ((greetingMessage :: eventsTurns events).map Message.id).Nodup
  rw [List.map_cons, List.nodup_cons]
  constructor
  · rw [eventsTurns_ids]
    intro hmem
    rcases List.mem_map.mp hmem with ⟨k, hk, hkid⟩
    exact renderId_ne_initial (eventsIdKeys_tags events k hk) k.2 hkid
  · rw [eventsTurns_ids]
    apply idKeys_render_nodup (eventsIdKeys_tags events)
    rw [eventsIdKeys_snd]
    exact h

/-- Witness for `send_ids_unique` at a concrete two-send trace with
distinct timestamps. -/
theorem send_ids_unique_witness :
    (eventsTimes [SendEvent.mk 1 2 "hi" (Except.ok "yo"),
        SendEvent.mk 3 4 "x" (Except.error "t")]).Nodup
    ∧ ((runSends [SendEvent.mk 1 2 "hi" (Except.ok "yo"),
        SendEvent.mk 3 4 "x" (Except.error "t")] readyState).messages.map Message.id).Nodup :=
  ⟨by decide,
   send_ids_unique [SendEvent.mk 1 2 "hi" (Except.ok "yo"),
     SendEvent.mk 3 4 "x" (Except.error "t")] (by decide)⟩

/-- C10: every accepted send clears the banner error before issuing the
exchange: even when the previous state carries a banner error, the
pre-exchange state has no error, and `handleSendMessage` consumes the
exchange result only on that cleared state, whatever the outcome. -/
theorem send_clears_banner (exchange : String → Except String String) (t1 t2 : Nat)
    (text prev : String) (s : AppState) (hsess : s.chatSession = true)
    (hbusy : s.isLoading = false) (hprev : s.error = some prev) :
    (sendPreExchange t1 text s).error = none
    ∧ (handleSendMessage exchange t1 t2 text s)
        = (sendPostExchange t2 (exchange text) (sendPreExchange t1 text s), [text]) := by
  refine ⟨rfl, ?_⟩
  simp [handleSendMessage, hsess, hbusy]

/-- Witness for `send_clears_banner` at a state carrying a stale banner. -/
theorem send_clears_banner_witness :
    (AppState.mk [greetingMessage] false (some "API Error: old") true).chatSession = true
    ∧ (AppState.mk [greetingMessage] false (some "API Error: old") true).isLoading = false
    ∧ (AppState.mk [greetingMessage] false (some "API Error: old") true).error
        = some "API Error: old"
    ∧ ((sendPreExchange 1 "retry"
          (AppState.mk [greetingMessage] false (some "API Error: old") true)).error = none
    ∧ (handleSendMessage (fun _ => Except.error "again") 1 2 "retry"
          (AppState.mk [greetingMessage] false (some "API Error: old") true))
        = (sendPostExchange 2 ((fun _ => Except.error "again") "retry")
            (sendPreExchange 1 "retry"
              (AppState.mk [greetingMessage] false (some "API Error: old") true)), ["retry"])) :=
  ⟨rfl, rfl, rfl,
   send_clears_banner (fun _ => Except.error "again") 1 2 "retry" "API Error: old"
     (AppState.mk [greetingMessage] false (some "API Error: old") true) rfl rfl rfl⟩

end AtsChatbot
